import Mathlib

/-!
Verification development for the trend-forecasting core of SentimentSage
(`ml_predictor.py`).  The pandas/sklearn pipeline is shallowly embedded:

* a DataFrame is a `Df` structure whose optional fields model columns that
  may or may not be present (the input frame has only `timestamp` and
  `polarity`; `prepare_time_features` adds the derived columns in place);
* numeric values are rationals; a NaN cell is `none` inside an
  `Option`-valued column or feature entry;
* the square root used by the rolling standard deviation and by the
  standard scaler is an uninterpreted parameter `sqrtQ` (no claim depends
  on its values);
* the seeded shuffling permutation of `train_test_split` is an
  uninterpreted parameter `perm`, applied to the seed the source passes
  (`random_state=42`); `ambient` models the global RNG state that would be
  consulted if `random_state` were `None`;
* the random-forest regressor is an abstract `RF` oracle whose `fit`
  returns a vectorised predictor; both may fail, modelling sklearn
  exceptions (e.g. NaN rejection), which `get_trend_analysis` catches.
-/

namespace SentimentSage

attribute [local semireducible] Rat.add Rat.mul Rat.inv Rat.sub

/-- Seconds per day, the unit of the `timedelta(days=...)` steps in
`predict_future_sentiment`. -/
def daySecs : Int := 86400

/-- Civil-calendar date `(year, month, day)` from a count of days since
1970-01-01 in the proleptic Gregorian calendar, modelling the pandas
accessors `dt.day` and `dt.month`. -/
def civilFromDays (z0 : Int) : Int × Int × Int :=
  let z := z0 + 719468
  let era := (if 0 ≤ z then z else z - 146096) / 146097
  let doe := z - era * 146097
  let yoe := (doe - doe / 1460 + doe / 36524 - doe / 146096) / 365
  let y := yoe + era * 400
  let doy := doe - (365 * yoe + yoe / 4 - yoe / 100)
  let mp := (5 * doy + 2) / 153
  let d := doy - (153 * mp + 2) / 5 + 1
  let m := if mp < 10 then mp + 3 else mp - 9
  (if mp < 10 then y else y + 1, m, d)

/-- `df['timestamp'].dt.hour` on a timestamp measured in seconds. -/
def tsHour (t : Int) : Int := (t.fdiv 3600).emod 24

/-- `df['timestamp'].dt.dayofweek` (Monday = 0; 1970-01-01 was a Thursday,
day-of-week 3). -/
def tsDayOfWeek (t : Int) : Int := (t.fdiv daySecs + 3).emod 7

/-- `df['timestamp'].dt.day` (day of month). -/
def tsDay (t : Int) : Int := (civilFromDays (t.fdiv daySecs)).2.2

/-- `df['timestamp'].dt.month`. -/
def tsMonth (t : Int) : Int := (civilFromDays (t.fdiv daySecs)).2.1

/-- `pd.to_datetime` on the timestamp column.  Timestamps are modelled as
already-parsed instants (seconds since the epoch), on which the conversion
is the identity. -/
def to_datetime (l : List Int) : List Int := l

/-- A pandas DataFrame as used by `ml_predictor.py`.  The two mandatory
columns are the caller-supplied `timestamp` and `polarity`; every other
column is `none` until some assignment creates it.  `sentiment_std` and
`next_sentiment` are `Option`-valued cell-wise because the source puts NaN
cells in them. -/
structure Df where
  timestamp : List Int
  polarity : List ℚ
  hour : Option (List Int) := none
  day_of_week : Option (List Int) := none
  day_of_month : Option (List Int) := none
  month : Option (List Int) := none
  rolling_avg_sentiment : Option (List ℚ) := none
  sentiment_std : Option (List (Option ℚ)) := none
  next_sentiment : Option (List (Option ℚ)) := none
deriving DecidableEq

/-- `len(df)`: the number of rows. -/
def Df.len (d : Df) : Nat := d.timestamp.length

/-- Sum of a list of rationals. -/
def qsum (l : List ℚ) : ℚ := l.foldl (fun a b => a + b) 0

/-- Arithmetic mean of a list of rationals (0 on the empty list, which the
pipeline never asks for). -/
def qmean (l : List ℚ) : ℚ := qsum l / (l.length : ℚ)

/-- The trailing window of `df['polarity'].rolling(window=5, min_periods=1)`
at row `i`: the row itself and up to four preceding rows. -/
def window5 (l : List ℚ) (i : Nat) : List ℚ := (l.take (i + 1)).drop (i + 1 - 5)

/-- Sample variance (ddof = 1) of a list of rationals, as used by the
pandas rolling standard deviation. -/
def sampleVar (l : List ℚ) : ℚ :=
  qsum (l.map (fun x => (x - qmean l) ^ 2)) / ((l.length : ℚ) - 1)

variable (sqrtQ : ℚ → ℚ)

/-- `df['polarity'].rolling(window=5, min_periods=1).mean()`. -/
def rollingMean (l : List ℚ) : List ℚ :=
  (List.range l.length).map (fun i => qmean (window5 l i))

/-- `df['polarity'].rolling(window=5, min_periods=1).std()`: NaN (`none`)
whenever the window holds fewer than two points, else the sample standard
deviation of the window. -/
def rollingStd (l : List ℚ) : List (Option ℚ) :=
  (List.range l.length).map (fun i =>
    if (window5 l i).length < 2 then none else some (sqrtQ (sampleVar (window5 l i))))

/-- `prepare_time_features(df)`: converts the timestamp column, then
assigns the four calendar columns and the two rolling-statistics columns.
The Python function mutates `df` in place and returns it; the returned
`Df` is therefore also the post-state of the argument object. -/
def prepare_time_features (d : Df) : Df :=
  let ts := to_datetime d.timestamp
  { d with
    timestamp := ts
    hour := some (ts.map tsHour)
    day_of_week := some (ts.map tsDayOfWeek)
    day_of_month := some (ts.map tsDay)
    month := some (ts.map tsMonth)
    rolling_avg_sentiment := some (rollingMean d.polarity)
    sentiment_std := some (rollingStd sqrtQ d.polarity) }

/-- `df['polarity'].shift(-1)`: cell `i` holds the polarity of row `i + 1`;
the last cell is NaN. -/
def shiftNeg1 (l : List ℚ) : List (Option ℚ) :=
  (List.range l.length).map (fun i => l.get? (i + 1))

/-- `df['next_sentiment'] = df['polarity'].shift(-1)` (in-place column
assignment, part of the post-state of the caller's frame). -/
def withNext (d : Df) : Df := { d with next_sentiment := some (shiftNeg1 d.polarity) }

/-- Keep the entries of `l` at the positions listed in `keep`. -/
def filterIdx (keep : List Nat) (l : List α) : List α :=
  keep.filterMap (fun i => l.get? i)

/-- `df.dropna(subset=['next_sentiment'])`: drops every row whose
`next_sentiment` cell is NaN, returning a new frame (the source rebinds
`df`, so the caller's object is not affected by this step). -/
def dropnaNext (d : Df) : Df :=
  let ns := d.next_sentiment.getD []
  let keep := (List.range d.timestamp.length).filter
    (fun i => ((ns.get? i).getD none).isSome)
  { timestamp := filterIdx keep d.timestamp
    polarity := filterIdx keep d.polarity
    hour := d.hour.map (filterIdx keep)
    day_of_week := d.day_of_week.map (filterIdx keep)
    day_of_month := d.day_of_month.map (filterIdx keep)
    month := d.month.map (filterIdx keep)
    rolling_avg_sentiment := d.rolling_avg_sentiment.map (filterIdx keep)
    sentiment_std := d.sentiment_std.map (filterIdx keep)
    next_sentiment := d.next_sentiment.map (filterIdx keep) }

/-- A feature vector: one `Option ℚ` per feature column, `none` for NaN. -/
abbrev FeatVec := List (Option ℚ)

/-- Value of an integer-valued column at row `j`, as a feature cell. -/
def colQ (c : Option (List Int)) (j : Nat) : Option ℚ :=
  ((c.getD []).get? j).map (fun z => (z : ℚ))

/-- Value of a NaN-capable rational column at row `j`. -/
def colOQ (c : Option (List (Option ℚ))) (j : Nat) : Option ℚ :=
  ((c.getD []).get? j).getD none

/-- Row `j` of `df[features]` with
`features = ['hour', 'day_of_week', 'day_of_month', 'month',
'rolling_avg_sentiment', 'sentiment_std', 'polarity']`. -/
def featRow (d : Df) (j : Nat) : FeatVec :=
  [colQ d.hour j, colQ d.day_of_week j, colQ d.day_of_month j, colQ d.month j,
   (d.rolling_avg_sentiment.getD []).get? j, colOQ d.sentiment_std j,
   d.polarity.get? j]

/-- The full feature matrix `X = df[features]`. -/
def featureMatrix (d : Df) : List FeatVec :=
  (List.range d.len).map (featRow d)

/-- Index split of `train_test_split(..., test_size=0.2, random_state=42)`:
the seeded permutation of the row indices is cut after
`n_test = ceil(0.2 * n)` positions; the head is the test block and the next
`n - n_test` positions are the training block.  `perm` is the (abstract)
seeded shuffling permutation; `ambient` is the global RNG state used only
when no `random_state` is supplied. -/
def splitIdx (perm : Nat → Nat → List Nat) (rs : Option Nat) (ambient : Nat)
    (n : Nat) : List Nat × List Nat :=
  let p := perm (rs.getD ambient) n
  let nTest := (n + 4) / 5
  ((p.drop nTest).take (n - nTest), p.take nTest)

/-- The per-feature NaN-ignoring value list used by `StandardScaler.fit`
(sklearn computes NaN-aware means and variances). -/
def nanVals (X : List FeatVec) (j : Nat) : List ℚ :=
  X.filterMap (fun r => (r.get? j).getD none)

/-- A fitted `StandardScaler`: per feature column, its mean and its scale
(`sqrt` of the population variance, with zero variance replaced by 1 as in
sklearn's `_handle_zeros_in_scale`); `none` when the column had no
non-NaN value. -/
def scalerFit (X : List FeatVec) : List (Option ℚ × Option ℚ) :=
  (List.range (X.headD []).length).map (fun j =>
    let v := nanVals X j
    if v.isEmpty then (none, none)
    else
      (some (qmean v),
       some (
         let var := qsum (v.map (fun x => (x - qmean v) ^ 2)) / (v.length : ℚ)
         if var = 0 then 1 else sqrtQ var)))

/-- `scaler.transform` on one row: `(x - mean) / scale` per feature, NaN
propagating. -/
def scalerTransformRow (s : List (Option ℚ × Option ℚ)) (r : FeatVec) : FeatVec :=
  (List.range s.length).map (fun j =>
    match (r.get? j).getD none, s.get? j with
    | some x, some (some m, some sc) => some ((x - m) / sc)
    | _, _ => none)

/-- A fitted regressor: a vectorised prediction function (one output per
input row) that may raise (e.g. sklearn versions that reject NaN
features). -/
abbrev Model := List FeatVec → Except String (List ℚ)

/-- The abstract `RandomForestRegressor` constructor-plus-`fit`: arguments
are `n_estimators`, the effective random seed, the scaled training matrix
and the targets.  Fitting may raise. -/
structure RF where
  fit : Nat → Nat → List FeatVec → List ℚ → Except String Model

/-- A predictor that succeeds on every input with one output per row (the
behaviour of a RandomForest whose version accepts the given features). -/
def ModelTotal (m : Model) : Prop :=
  ∀ X, ∃ ps, m X = Except.ok ps ∧ ps.length = X.length

/-- A regressor oracle whose fitting always succeeds and yields a total
predictor. -/
def RFTotal (rf : RF) : Prop :=
  ∀ ne sd X y, ∃ m, rf.fit ne sd X y = Except.ok m ∧ ModelTotal m

/-- The coefficient of determination computed by `model.score` /
`r2_score`, including sklearn's conventions for a zero total sum of
squares. -/
def r2score (y yp : List ℚ) : ℚ :=
  let ybar := qmean y
  let ssres := qsum ((y.zip yp).map (fun p => (p.1 - p.2) ^ 2))
  let sstot := qsum (y.map (fun v => (v - ybar) ^ 2))
  if sstot = 0 then (if ssres = 0 then 1 else 0) else 1 - ssres / sstot

/-- `model.score(X, y)`: predict, check sample-count consistency, then
R-squared. -/
def modelScore (m : Model) (X : List FeatVec) (y : List ℚ) : Except String ℚ :=
  match m X with
  | Except.error e => Except.error e
  | Except.ok ps =>
      if ps.length = y.length then Except.ok (r2score y ps)
      else Except.error "Found input variables with inconsistent numbers of samples"

/-- What `train_prediction_model` hands back on success. -/
structure Trained where
  model : Model
  scaler : List (Option ℚ × Option ℚ)
  train_score : ℚ
  test_score : ℚ

variable (rf : RF) (perm : Nat → Nat → List Nat) (ambient : Nat)

/-- The prepared-and-labelled frame built at the top of
`train_prediction_model`; it is also the post-state of the caller's frame,
because `prepare_time_features` and the `next_sentiment` assignment both
mutate the argument object in place. -/
def labelledFrame (d : Df) : Df := withNext (prepare_time_features sqrtQ d)

/-- The frame after `df = df.dropna(subset=['next_sentiment'])` inside
`train_prediction_model` (a fresh object, unlike the two mutations
before it). -/
def droppedFrame (d : Df) : Df := dropnaNext (labelledFrame sqrtQ d)

/-- `X = df[features]` of the dropped frame. -/
def pipelineX (d : Df) : List FeatVec := featureMatrix (droppedFrame sqrtQ d)

/-- `y = df['next_sentiment']` of the dropped frame. -/
def pipelineY (d : Df) : List ℚ :=
  ((droppedFrame sqrtQ d).next_sentiment.getD []).map (fun o => o.getD 0)

/-- The training-block row indices of the seeded split. -/
def trainIdx (d : Df) : List Nat :=
  (splitIdx perm (some 42) ambient (pipelineX sqrtQ d).length).1

/-- The test-block row indices of the seeded split. -/
def testIdx (d : Df) : List Nat :=
  (splitIdx perm (some 42) ambient (pipelineX sqrtQ d).length).2

/-- `X_train`: the training-block feature rows. -/
def Xtrain (d : Df) : List FeatVec :=
  (trainIdx sqrtQ perm ambient d).map (fun i => ((pipelineX sqrtQ d).get? i).getD [])

/-- `X_test`: the test-block feature rows. -/
def Xtest (d : Df) : List FeatVec :=
  (testIdx sqrtQ perm ambient d).map (fun i => ((pipelineX sqrtQ d).get? i).getD [])

/-- `y_train`. -/
def ytrain (d : Df) : List ℚ :=
  (trainIdx sqrtQ perm ambient d).map (fun i => ((pipelineY sqrtQ d).get? i).getD 0)

/-- `y_test`. -/
def ytest (d : Df) : List ℚ :=
  (testIdx sqrtQ perm ambient d).map (fun i => ((pipelineY sqrtQ d).get? i).getD 0)

/-- `scaler = StandardScaler(); scaler.fit(X_train)`: the transform is fit
on the training block only. -/
def theScaler (d : Df) : List (Option ℚ × Option ℚ) :=
  scalerFit sqrtQ (Xtrain sqrtQ perm ambient d)

/-- `X_train_scaled = scaler.fit_transform(X_train)`. -/
def XtrainS (d : Df) : List FeatVec :=
  (Xtrain sqrtQ perm ambient d).map (scalerTransformRow (theScaler sqrtQ perm ambient d))

/-- `X_test_scaled = scaler.transform(X_test)`: the fitted transform is
reused, not refit. -/
def XtestS (d : Df) : List FeatVec :=
  (Xtest sqrtQ perm ambient d).map (scalerTransformRow (theScaler sqrtQ perm ambient d))

/-- `train_prediction_model(df)`: feature preparation, target creation,
row dropping, seeded 80/20 split, scaler fit on the training block only,
forest fit on the scaled training block, and the two R-squared scores. -/
def train_prediction_model (d : Df) : Except String Trained :=
  match rf.fit 100 ((some 42).getD ambient) (XtrainS sqrtQ perm ambient d)
      (ytrain sqrtQ perm ambient d) with
  | Except.error e => Except.error e
  | Except.ok model =>
      match modelScore model (XtrainS sqrtQ perm ambient d) (ytrain sqrtQ perm ambient d) with
      | Except.error e => Except.error e
      | Except.ok trs =>
          match modelScore model (XtestS sqrtQ perm ambient d) (ytest sqrtQ perm ambient d) with
          | Except.error e => Except.error e
          | Except.ok tes => Except.ok ⟨model, theScaler sqrtQ perm ambient d, trs, tes⟩

/-- The one-row (or empty) list kept by `df.iloc[-1:]` for one column. -/
def lastRowL (l : List α) : List α :=
  match l.getLast? with
  | none => []
  | some x => [x]

/-- `df.iloc[-1:]`: the one-row frame holding the last row of every
column present. -/
def dfLastRow (d : Df) : Df :=
  { timestamp := lastRowL d.timestamp
    polarity := lastRowL d.polarity
    hour := d.hour.map lastRowL
    day_of_week := d.day_of_week.map lastRowL
    day_of_month := d.day_of_month.map lastRowL
    month := d.month.map lastRowL
    rolling_avg_sentiment := d.rolling_avg_sentiment.map lastRowL
    sentiment_std := d.sentiment_std.map lastRowL
    next_sentiment := d.next_sentiment.map lastRowL }

/-- `last_data['timestamp'] = next_timestamp`: broadcast a scalar over the
timestamp column. -/
def setTsAll (t : Int) (d : Df) : Df :=
  { d with timestamp := d.timestamp.map (fun _ => t) }

/-- `new_row['polarity'] = prediction`: broadcast a scalar over the
polarity column. -/
def setPolAll (p : ℚ) (d : Df) : Df :=
  { d with polarity := d.polarity.map (fun _ => p) }

/-- Concatenate one optional column of two frames (`pd.concat`); in the
prediction loop both frames always carry the same columns. -/
def ocat (a b : Option (List α)) : Option (List α) :=
  match a, b with
  | some x, some y => some (x ++ y)
  | _, _ => none

/-- `pd.concat([df_copy, new_row])`. -/
def dfConcat (a b : Df) : Df :=
  { timestamp := a.timestamp ++ b.timestamp
    polarity := a.polarity ++ b.polarity
    hour := ocat a.hour b.hour
    day_of_week := ocat a.day_of_week b.day_of_week
    day_of_month := ocat a.day_of_month b.day_of_month
    month := ocat a.month b.month
    rolling_avg_sentiment := ocat a.rolling_avg_sentiment b.rolling_avg_sentiment
    sentiment_std := ocat a.sentiment_std b.sentiment_std
    next_sentiment := ocat a.next_sentiment b.next_sentiment }

/-- `df_copy['timestamp'].max()`. -/
def listMaxI (l : List Int) : Int := l.foldl max (l.headD 0)

/-- One iteration of the loop in `predict_future_sentiment`, recorded for
inspection: the future timestamp, the working series `df_copy` at loop
entry, the synthetic row `last_data` after `prepare_time_features`, the
raw and scaled feature vectors, and the prediction. -/
structure StepInfo where
  ts : Int
  working : Df
  row : Df
  xpred : FeatVec
  xscaled : FeatVec
  pred : ℚ
deriving DecidableEq

/-- The `for i in range(num_periods)` loop of `predict_future_sentiment`:
take `df_copy.iloc[-1:]`, overwrite its timestamp with
`last_timestamp + timedelta(days=i+1)`, re-run `prepare_time_features` on
that one-row frame, scale `last_data[features]` with the passed (never
refitted) scaler, predict, and append the predicted row to `df_copy`. -/
def predictSteps (m : Model) (scaler : List (Option ℚ × Option ℚ))
    (lastTs : Int) : Nat → Nat → Df → Except String (List StepInfo)
  | _, 0, _ => Except.ok []
  | i, fuel + 1, dfCopy =>
      let lastData0 := dfLastRow dfCopy
      let nextTs := lastTs + ((i : Int) + 1) * daySecs
      let lastData := prepare_time_features sqrtQ (setTsAll nextTs lastData0)
      let xpred := featRow lastData 0
      let xscaled := scalerTransformRow scaler xpred
      match m [xscaled] with
      | Except.error e => Except.error e
      | Except.ok ps =>
          match ps with
          | [] => Except.error "index 0 is out of bounds"
          | p :: _ =>
              let newRow := setPolAll p lastData
              match predictSteps m scaler lastTs (i + 1) fuel (dfConcat dfCopy newRow) with
              | Except.error e => Except.error e
              | Except.ok rest =>
                  Except.ok (⟨nextTs, dfCopy, lastData, xpred, xscaled, p⟩ :: rest)

/-- `predict_future_sentiment(df, model, scaler, num_periods)`: copy the
frame, prepare its features, fix `last_timestamp` as the maximum
historical timestamp, run the loop, and package the
`(timestamp, predicted_sentiment)` pairs. -/
def predict_future_sentiment (m : Model) (scaler : List (Option ℚ × Option ℚ))
    (d : Df) (numPeriods : Nat) : Except String (List (Int × ℚ)) :=
  let dfCopy := prepare_time_features sqrtQ d
  let lastTs := listMaxI dfCopy.timestamp
  match predictSteps sqrtQ m scaler lastTs 0 numPeriods dfCopy with
  | Except.error e => Except.error e
  | Except.ok l => Except.ok (l.map (fun st => (st.ts, st.pred)))

/-- The `model_performance` dictionary of a successful trend analysis. -/
structure ModelPerformance where
  train_score : ℚ
  test_score : ℚ
  confidence : ℚ
deriving DecidableEq

/-- The dictionary returned by `get_trend_analysis`. -/
structure TrendResult where
  error : Option String
  predictions : Option (List (Int × ℚ))
  model_performance : Option ModelPerformance
deriving DecidableEq

/-- The exact guard message of `get_trend_analysis`. -/
def insufficientMsg : String :=
  "Insufficient data for trend prediction. Need at least 10 data points."

/-- `get_trend_analysis(df)`: the sub-10-rows guard, then training and
prediction inside a try/except whose handler wraps the underlying message.
By line 133 of the source the frame passed to `predict_future_sentiment`
is the caller's object, which training already mutated in place — hence
the `labelledFrame` argument. -/
def get_trend_analysis (d : Df) : TrendResult :=
  if d.len < 10 then ⟨some insufficientMsg, none, none⟩
  else
    match train_prediction_model sqrtQ rf perm ambient d with
    | Except.error e => ⟨some ("Error in trend prediction: " ++ e), none, none⟩
    | Except.ok t =>
        match predict_future_sentiment sqrtQ t.model t.scaler (labelledFrame sqrtQ d) 7 with
        | Except.error e => ⟨some ("Error in trend prediction: " ++ e), none, none⟩
        | Except.ok preds =>
            ⟨none, some preds,
             some ⟨t.train_score, t.test_score, (t.train_score + t.test_score) / 2⟩⟩

/-- The state of the caller's frame after `get_trend_analysis` returns:
below 10 rows nothing runs; otherwise `train_prediction_model` has mutated
the argument object via `prepare_time_features` and the `next_sentiment`
assignment (everything later operates on copies). -/
def get_trend_analysis_post (d : Df) : Df :=
  if d.len < 10 then d else labelledFrame sqrtQ d

/-- The step list of a loop run, empty when the run raised (inspection
helper for stating properties of the loop). -/
def stepsOrEmpty (r : Except String (List StepInfo)) : List StepInfo :=
  match r with
  | Except.ok l => l
  | Except.error _ => []

/-! ### Concrete instances used by witnesses and counterexamples -/

/-- A concrete square root stand-in (no claim depends on its values). -/
def sqrtZero : ℚ → ℚ := fun _ => 0

/-- A concrete shuffling permutation (the identity ordering). -/
def permId : Nat → Nat → List Nat := fun _ n => List.range n

/-- A concrete total regressor oracle: fitting always succeeds and the
fitted model predicts 0 for every row. -/
def rfConst : RF := ⟨fun _ _ _ _ => Except.ok (fun X => Except.ok (X.map (fun _ => 0)))⟩

/-- The constant-zero vectorised predictor. -/
def modelConst : Model := fun X => Except.ok (X.map (fun _ => 0))

/-- A concrete fitted scaler: mean 0 and scale 1 for each of the 7
features. -/
def scalerId : List (Option ℚ × Option ℚ) := (List.range 7).map (fun _ => (some 0, some 1))

/-- Scenario A input: 15 records, strictly increasing daily timestamps,
alternating polarity +0.5 / -0.5. -/
def scenarioA : Df :=
  { timestamp := (List.range 15).map (fun i => (i : Int) * 86400)
    polarity := (List.range 15).map (fun i => if i % 2 = 0 then (1 : ℚ) / 2 else -(1 : ℚ) / 2) }

/-- A 10-record input with distinct increasing polarities. -/
def sampleTen : Df :=
  { timestamp := (List.range 10).map (fun i => (i : Int) * 86400)
    polarity := (List.range 10).map (fun i => ((i : ℚ) + 1) / 10) }

/-- A 5-record input (Scenario B). -/
def sampleFive : Df :=
  { timestamp := [0, 86400, 172800, 259200, 345600]
    polarity := [0, 0, 0, 0, 0] }

/-- A 1-record input (the length-1 edge case of the spec). -/
def sampleOne : Df := { timestamp := [0], polarity := [(7 : ℚ) / 10] }

/-- Modelled from the spec: the mean of the trailing up-to-5 `polarity`
values of the working series at a point of the prediction loop (the value
the spec says the synthetic row's `rolling_avg_sentiment` must equal). -/
def specTrailingMean5 (l : List ℚ) : ℚ := qmean (l.drop (l.length - 5))

/-- A default trained bundle, used to name the successful outcome of a
concrete training run. -/
def trainedOr (r : Except String Trained) (t0 : Trained) : Trained :=
  match r with
  | Except.ok t => t
  | Except.error _ => t0

/-! ### Helper lemmas -/

theorem rfConst_total : RFTotal rfConst := by
  intro ne sd X y
  refine ⟨fun X => Except.ok (X.map (fun _ => 0)), rfl, ?_⟩
  intro Z
  exact ⟨Z.map (fun _ => 0), rfl, by simp⟩

theorem qmean_singleton (x : ℚ) : qmean [x] = x := by
  simp [qmean, qsum]

theorem window5_zero (l : List ℚ) : window5 l 0 = l.take 1 := by
  simp [window5]

theorem rollingMean_singleton (x : ℚ) : rollingMean [x] = [x] := by
  simp [rollingMean, List.range_succ, window5_zero, qmean_singleton]

theorem rollingStd_singleton (sq : ℚ → ℚ) (x : ℚ) : rollingStd sq [x] = [none] := by
  simp [rollingStd, List.range_succ, window5_zero]

theorem lastRowL_of_ne_nil {α : Type _} (l : List α) (x : α) (h : l ≠ []) :
    lastRowL l = [l.getLastD x] := by
  cases hl : l.getLast? with
  | none => exact absurd (List.getLast?_eq_none_iff.mp hl) h
  | some a =>
      have : l.getLastD x = a := by
        rw [List.getLastD_eq_getLast?, hl]; rfl
      rw [lastRowL, hl, this]

theorem window5_length (l : List ℚ) (i : Nat) (h : i < l.length) :
    (window5 l i).length = min (i + 1) 5 := by
  simp only [window5, List.length_drop, List.length_take]
  omega

theorem listMaxI_aux (t : List Int) : ∀ a : Int, List.Chain' (· ≤ ·) (a :: t) →
    t.foldl max a = (a :: t).getLastD 0 := by
  induction t with
  | nil => intro a _; simp [listMaxI]
  | cons b t' ih =>
      intro a h
      rw [List.chain'_cons] at h
      have h1 : max a b = b := max_eq_right h.1
      have := ih b h.2
      simp only [List.foldl_cons, h1, this]
      rfl

theorem listMaxI_eq_getLast (l : List Int) (h : List.Chain' (· ≤ ·) l) :
    listMaxI l = l.getLastD 0 := by
  cases l with
  | nil => rfl
  | cons a t =>
      have : listMaxI (a :: t) = t.foldl max a := by
        simp [listMaxI]
      rw [this, listMaxI_aux t a h]

theorem XtrainS_length_eq (sq : ℚ → ℚ) (perm : Nat → Nat → List Nat) (ambient : Nat) (d : Df) :
    (XtrainS sq perm ambient d).length = (ytrain sq perm ambient d).length := by
  simp [XtrainS, Xtrain, ytrain]

theorem XtestS_length_eq (sq : ℚ → ℚ) (perm : Nat → Nat → List Nat) (ambient : Nat) (d : Df) :
    (XtestS sq perm ambient d).length = (ytest sq perm ambient d).length := by
  simp [XtestS, Xtest, ytest]

/-- Every step of the prediction loop carries: a future timestamp following
the arithmetic progression `lastTs + (i + j + 1) * daySecs`; a synthetic row
obtained by re-running `prepare_time_features` on the one-row tail of the
working series with the future timestamp written in; a feature vector read
from that row; and a scaled vector obtained from the loop-invariant scaler. -/
theorem predictSteps_shape (sq : ℚ → ℚ) (m : Model) (s : List (Option ℚ × Option ℚ))
    (lt : Int) (fuel : Nat) :
    ∀ (i : Nat) (d : Df) (l : List StepInfo),
      predictSteps sq m s lt i fuel d = Except.ok l →
      (l.map StepInfo.ts = (List.range fuel).map (fun j : Nat => lt + ((i : Int) + j + 1) * daySecs)) ∧
      (∀ st ∈ l,
        st.row = prepare_time_features sq (setTsAll st.ts (dfLastRow st.working)) ∧
        st.xpred = featRow st.row 0 ∧
        st.xscaled = scalerTransformRow s st.xpred) ∧
      (d.polarity ≠ [] → ∀ st ∈ l, st.working.polarity ≠ []) := by
  induction fuel with
  | zero =>
      intro i d l h
      simp only [predictSteps] at h
      simp only [Except.ok.injEq] at h
      subst h
      exact ⟨by simp, by simp, by simp⟩
  | succ fuel ih =>
      intro i d l h
      simp only [predictSteps] at h
      cases hm : m [scalerTransformRow s (featRow (prepare_time_features sq
          (setTsAll (lt + ((i : Int) + 1) * daySecs) (dfLastRow d))) 0)] with
      | error e => simp only [hm] at h; exact Except.noConfusion h
      | ok ps =>
          simp only [hm] at h
          cases ps with
          | nil => exact Except.noConfusion h
          | cons p tl =>
              cases hrec : predictSteps sq m s lt (i + 1) fuel
                  (dfConcat d (setPolAll p (prepare_time_features sq
                    (setTsAll (lt + ((i : Int) + 1) * daySecs) (dfLastRow d))))) with
              | error e => simp only [hrec] at h; exact Except.noConfusion h
              | ok rest =>
                  simp only [hrec, Except.ok.injEq] at h
                  subst h
                  obtain ⟨ih1, ih2, ih3⟩ := ih (i + 1) _ rest hrec
                  refine ⟨?_, ?_, ?_⟩
                  · simp only [List.map_cons, List.range_succ_eq_map, List.map_map]
                    refine List.cons_eq_cons.mpr ⟨by push_cast; ring, ?_⟩
                    rw [ih1]
                    apply List.map_congr_left
                    intro j _
                    simp only [Function.comp]
                    push_cast
                    ring
                  · intro st hst
                    rcases List.mem_cons.mp hst with hh | hh
                    · subst hh; exact ⟨rfl, rfl, rfl⟩
                    · exact ih2 st hh
                  · intro hne st hst
                    rcases List.mem_cons.mp hst with hh | hh
                    · subst hh; exact hne
                    · refine ih3 ?_ st hh
                      simp only [dfConcat]
                      intro hc
                      exact hne (List.append_eq_nil.mp hc).1

/-- With a total predictor the loop always succeeds and yields one step per
requested period. -/
theorem predictSteps_total (sq : ℚ → ℚ) (m : Model) (s : List (Option ℚ × Option ℚ))
    (lt : Int) (hm : ModelTotal m) (fuel : Nat) :
    ∀ (i : Nat) (d : Df), ∃ l, predictSteps sq m s lt i fuel d = Except.ok l ∧ l.length = fuel := by
  induction fuel with
  | zero =>
      intro i d
      exact ⟨[], by simp only [predictSteps], rfl⟩
  | succ fuel ih =>
      intro i d
      obtain ⟨ps, hps, hlen⟩ := hm [scalerTransformRow s (featRow (prepare_time_features sq
        (setTsAll (lt + ((i : Int) + 1) * daySecs) (dfLastRow d))) 0)]
      cases ps with
      | nil => simp at hlen
      | cons p tl =>
          obtain ⟨rest, hrest, hrlen⟩ := ih (i + 1)
            (dfConcat d (setPolAll p (prepare_time_features sq
              (setTsAll (lt + ((i : Int) + 1) * daySecs) (dfLastRow d)))))
          refine ⟨⟨lt + ((i : Int) + 1) * daySecs, d,
              prepare_time_features sq (setTsAll (lt + ((i : Int) + 1) * daySecs) (dfLastRow d)),
              featRow (prepare_time_features sq
                (setTsAll (lt + ((i : Int) + 1) * daySecs) (dfLastRow d))) 0,
              scalerTransformRow s (featRow (prepare_time_features sq
                (setTsAll (lt + ((i : Int) + 1) * daySecs) (dfLastRow d))) 0),
              p⟩ :: rest, ?_, by simp [hrlen]⟩
          simp only [predictSteps, hps, hrest]

/-- With a total oracle, training succeeds, the fitted predictor is total,
and the returned scaler is the one fit on the training block. -/
theorem train_ok (sq : ℚ → ℚ) (rf : RF) (perm : Nat → Nat → List Nat) (ambient : Nat)
    (hrf : RFTotal rf) (d : Df) :
    ∃ t, train_prediction_model sq rf perm ambient d = Except.ok t ∧
      ModelTotal t.model ∧ t.scaler = theScaler sq perm ambient d := by
  obtain ⟨m, hfit, hm⟩ := hrf 100 ((some 42 : Option Nat).getD ambient)
    (XtrainS sq perm ambient d) (ytrain sq perm ambient d)
  obtain ⟨ps, hps, hlen⟩ := hm (XtrainS sq perm ambient d)
  obtain ⟨qs, hqs, hqlen⟩ := hm (XtestS sq perm ambient d)
  have h1 : ps.length = (ytrain sq perm ambient d).length :=
    hlen.trans (XtrainS_length_eq sq perm ambient d)
  have h2 : qs.length = (ytest sq perm ambient d).length :=
    hqlen.trans (XtestS_length_eq sq perm ambient d)
  refine ⟨⟨m, theScaler sq perm ambient d,
      r2score (ytrain sq perm ambient d) ps, r2score (ytest sq perm ambient d) qs⟩,
      ?_, hm, rfl⟩
  simp only [train_prediction_model, modelScore, hfit, hps, hqs]
  rw [if_pos h1, if_pos h2]

/-! ### Claim theorems -/

/-- C3: for every input series with fewer than 10 records,
`get_trend_analysis` returns immediately with the exact insufficient-data
message, null predictions and null model performance; no training is
attempted (the result is a literal independent of the regressor, the
permutation and the ambient randomness, and the caller's frame is left
untouched). -/
theorem insufficient_guard (sq : ℚ → ℚ) (rf : RF) (perm : Nat → Nat → List Nat)
    (ambient : Nat) (d : Df) (h : d.len < 10) :
    get_trend_analysis sq rf perm ambient d =
      ⟨some "Insufficient data for trend prediction. Need at least 10 data points.",
        none, none⟩ ∧
    get_trend_analysis_post sq d = d := by
  constructor
  · simp only [get_trend_analysis, if_pos h]
    rfl
  · simp only [get_trend_analysis_post, if_pos h]

theorem insufficient_guard_witness :
    sampleFive.len < 10 ∧
    (get_trend_analysis sqrtZero rfConst permId 0 sampleFive =
      ⟨some "Insufficient data for trend prediction. Need at least 10 data points.",
        none, none⟩ ∧
    get_trend_analysis_post sqrtZero sampleFive = sampleFive) :=
  ⟨by decide, insufficient_guard sqrtZero rfConst permId 0 sampleFive (by decide)⟩

/-- C5: with at least 10 records, `get_trend_analysis` is a total function
whose result is either a wrapped internal error — the exact prefix
"Error in trend prediction: " followed by the underlying message, with null
predictions and performance — or a success with null error and populated
predictions and performance.  No exception escapes: the embedding returns a
`TrendResult` in every case. -/
theorem trend_analysis_error_recovery (sq : ℚ → ℚ) (rf : RF) (perm : Nat → Nat → List Nat)
    (ambient : Nat) (d : Df) (h : 10 ≤ d.len) :
    (∃ msg, get_trend_analysis sq rf perm ambient d =
        ⟨some ("Error in trend prediction: " ++ msg), none, none⟩) ∨
    (∃ p mp, get_trend_analysis sq rf perm ambient d = ⟨none, some p, some mp⟩) := by
  have hlt : ¬ d.len < 10 := by omega
  simp only [get_trend_analysis, if_neg hlt]
  cases htr : train_prediction_model sq rf perm ambient d with
  | error e => exact Or.inl ⟨e, by simp only [htr]⟩
  | ok t =>
      cases hp : predict_future_sentiment sq t.model t.scaler (labelledFrame sq d) 7 with
      | error e => exact Or.inl ⟨e, by simp only [htr, hp]⟩
      | ok preds =>
          exact Or.inr ⟨preds, ⟨t.train_score, t.test_score,
            (t.train_score + t.test_score) / 2⟩, by simp only [htr, hp]⟩

theorem trend_analysis_error_recovery_witness :
    10 ≤ scenarioA.len ∧
    ((∃ msg, get_trend_analysis sqrtZero rfConst permId 0 scenarioA =
        ⟨some ("Error in trend prediction: " ++ msg), none, none⟩) ∨
    (∃ p mp, get_trend_analysis sqrtZero rfConst permId 0 scenarioA = ⟨none, some p, some mp⟩)) :=
  ⟨by decide, trend_analysis_error_recovery sqrtZero rfConst permId 0 scenarioA (by decide)⟩

/-- C6: `get_trend_analysis` is deterministic.  Both consumers of
randomness are invoked with the fixed seed 42 (`train_test_split` and the
forest constructor), so the result does not depend on the ambient random
state that the libraries would consult if no seed were passed: two
invocations under different ambient states coincide. -/
theorem trend_analysis_seeded_deterministic (sq : ℚ → ℚ) (rf : RF)
    (perm : Nat → Nat → List Nat) (d : Df) (a1 a2 : Nat) :
    get_trend_analysis sq rf perm a1 d = get_trend_analysis sq rf perm a2 d := rfl

/-- C10: `prepare_time_features` is idempotent: every derived column is
recomputed solely from the `timestamp` and `polarity` columns, whose
values the function leaves unchanged. -/
theorem prepare_time_features_idempotent (sq : ℚ → ℚ) (d : Df) :
    prepare_time_features sq (prepare_time_features sq d) = prepare_time_features sq d := rfl

/-- C9: a feature row whose trailing window holds a single point has
`rolling_avg_sentiment` equal to that row's polarity and a null
`sentiment_std`; and `sentiment_std` is null exactly when the window holds
fewer than two points. -/
theorem rolling_window_single_point (sq : ℚ → ℚ) (d : Df) (i : Nat)
    (h : i < d.polarity.length) :
    (((prepare_time_features sq d).sentiment_std.getD []).get? i = some none ↔
      (window5 d.polarity i).length < 2) ∧
    ((window5 d.polarity i).length = 1 →
      ((prepare_time_features sq d).rolling_avg_sentiment.getD []).get? i
          = some ((d.polarity.get? i).getD 0) ∧
      ((prepare_time_features sq d).sentiment_std.getD []).get? i = some none) := by
  have hstd : ((prepare_time_features sq d).sentiment_std.getD []).get? i
      = some (if (window5 d.polarity i).length < 2 then none
              else some (sq (sampleVar (window5 d.polarity i)))) := by
    simp [prepare_time_features, rollingStd, List.getElem?_map]
    exact ⟨i, List.getElem?_range h, rfl⟩
  constructor
  · rw [hstd]
    by_cases hw : (window5 d.polarity i).length < 2
    · simp [hw]
    · simp [hw]
  · intro h1
    have hi : i = 0 := by
      have := window5_length d.polarity i h
      omega
    subst hi
    refine ⟨?_, by rw [hstd]; simp [h1]⟩
    have hmean : ((prepare_time_features sq d).rolling_avg_sentiment.getD []).get? 0
        = some (qmean (window5 d.polarity 0)) := by
      simp [prepare_time_features, rollingMean, List.getElem?_map]
      exact ⟨0, List.getElem?_range h, rfl⟩
    rw [hmean, window5_zero]
    rcases hd : d.polarity with _ | ⟨a, t⟩
    · rw [hd] at h; simp at h
    · simp [qmean_singleton]

theorem rolling_window_single_point_witness :
    0 < sampleOne.polarity.length ∧
    ((((prepare_time_features sqrtZero sampleOne).sentiment_std.getD []).get? 0 = some none ↔
        (window5 sampleOne.polarity 0).length < 2) ∧
      ((window5 sampleOne.polarity 0).length = 1 →
        ((prepare_time_features sqrtZero sampleOne).rolling_avg_sentiment.getD []).get? 0
            = some ((sampleOne.polarity.get? 0).getD 0) ∧
        ((prepare_time_features sqrtZero sampleOne).sentiment_std.getD []).get? 0 = some none)) :=
  ⟨by decide, rolling_window_single_point sqrtZero sampleOne 0 (by decide)⟩

/-- C8 counterexample: on a concrete 10-record input the caller's frame
after `get_trend_analysis` differs from the frame passed in —
`train_prediction_model` mutates the argument object in place (derived
columns and `next_sentiment` are added), so the input series is not left
unchanged. -/
theorem input_mutation_counterexample :
    get_trend_analysis_post sqrtZero sampleTen ≠ sampleTen := by
  decide

/-- C8 corrected: for at least 10 records, `get_trend_analysis` mutates the
caller's frame by adding the derived columns (`hour`, `day_of_week`,
`day_of_month`, `month`, `rolling_avg_sentiment`, `sentiment_std`) and
`next_sentiment`, while leaving the `timestamp` and `polarity` values
unchanged (below 10 records the frame is untouched — see the guard
theorem). -/
theorem input_mutation_amended (sq : ℚ → ℚ) (d : Df) (h : 10 ≤ d.len) :
    (get_trend_analysis_post sq d).timestamp = d.timestamp ∧
    (get_trend_analysis_post sq d).polarity = d.polarity ∧
    (get_trend_analysis_post sq d).hour ≠ none ∧
    (get_trend_analysis_post sq d).day_of_week ≠ none ∧
    (get_trend_analysis_post sq d).day_of_month ≠ none ∧
    (get_trend_analysis_post sq d).month ≠ none ∧
    (get_trend_analysis_post sq d).rolling_avg_sentiment ≠ none ∧
    (get_trend_analysis_post sq d).sentiment_std ≠ none ∧
    (get_trend_analysis_post sq d).next_sentiment ≠ none := by
  have hlt : ¬ d.len < 10 := by omega
  simp [get_trend_analysis_post, if_neg hlt, labelledFrame, withNext,
    prepare_time_features, to_datetime]

theorem input_mutation_amended_witness :
    10 ≤ sampleTen.len ∧
    ((get_trend_analysis_post sqrtZero sampleTen).timestamp = sampleTen.timestamp ∧
    (get_trend_analysis_post sqrtZero sampleTen).polarity = sampleTen.polarity ∧
    (get_trend_analysis_post sqrtZero sampleTen).hour ≠ none ∧
    (get_trend_analysis_post sqrtZero sampleTen).day_of_week ≠ none ∧
    (get_trend_analysis_post sqrtZero sampleTen).day_of_month ≠ none ∧
    (get_trend_analysis_post sqrtZero sampleTen).month ≠ none ∧
    (get_trend_analysis_post sqrtZero sampleTen).rolling_avg_sentiment ≠ none ∧
    (get_trend_analysis_post sqrtZero sampleTen).sentiment_std ≠ none ∧
    (get_trend_analysis_post sqrtZero sampleTen).next_sentiment ≠ none) :=
  ⟨by decide, input_mutation_amended sqrtZero sampleTen (by decide)⟩

/-- C2 counterexample: in a concrete run of the prediction loop there is a
step whose synthetic row has `rolling_avg_sentiment` different from the
mean of the trailing up-to-5 polarities of the working series at that
point: the loop re-runs `prepare_time_features` on the one-row frame
`df_copy.iloc[-1:]`, so the rolling window never sees the other rows. -/
theorem future_rolling_recurrence_counterexample :
    ¬ ∀ st ∈ stepsOrEmpty (predictSteps sqrtZero modelConst scalerId (86400 * 9) 0 1
        (prepare_time_features sqrtZero sampleTen)),
      st.row.rolling_avg_sentiment = some [specTrailingMean5 st.working.polarity] := by
  decide

/-- C2 corrected: the synthetic future row's rolling features are computed
from the one-row frame alone: its `rolling_avg_sentiment` is the single
polarity of the most recent working-series row (not the trailing-5 mean of
the working series) and its `sentiment_std` is null. -/
theorem future_rolling_from_single_row (sq : ℚ → ℚ) (m : Model)
    (s : List (Option ℚ × Option ℚ)) (lt : Int) (i fuel : Nat) (d : Df)
    (l : List StepInfo)
    (hrun : predictSteps sq m s lt i fuel d = Except.ok l) (hne : d.polarity ≠ []) :
    ∀ st ∈ l, st.row.rolling_avg_sentiment = some [st.working.polarity.getLastD 0] ∧
      st.row.sentiment_std = some [none] := by
  obtain ⟨_, h2, h3⟩ := predictSteps_shape sq m s lt fuel i d l hrun
  intro st hst
  obtain ⟨hrow, _, _⟩ := h2 st hst
  have hwne : st.working.polarity ≠ [] := h3 hne st hst
  have hpol : (setTsAll st.ts (dfLastRow st.working)).polarity
      = [st.working.polarity.getLastD 0] := by
    simp [setTsAll, dfLastRow, lastRowL_of_ne_nil st.working.polarity 0 hwne]
  rw [hrow]
  constructor
  · simp [prepare_time_features, hpol, rollingMean_singleton]
  · simp [prepare_time_features, hpol, rollingStd_singleton]

theorem future_rolling_from_single_row_witness :
    (predictSteps sqrtZero modelConst scalerId (86400 * 9) 0 1
        (prepare_time_features sqrtZero sampleTen)
      = Except.ok (stepsOrEmpty (predictSteps sqrtZero modelConst scalerId (86400 * 9) 0 1
        (prepare_time_features sqrtZero sampleTen)))) ∧
    (prepare_time_features sqrtZero sampleTen).polarity ≠ [] ∧
    ∀ st ∈ stepsOrEmpty (predictSteps sqrtZero modelConst scalerId (86400 * 9) 0 1
        (prepare_time_features sqrtZero sampleTen)),
      st.row.rolling_avg_sentiment = some [st.working.polarity.getLastD 0] ∧
      st.row.sentiment_std = some [none] :=
  ⟨rfl, by decide,
    future_rolling_from_single_row sqrtZero modelConst scalerId (86400 * 9) 0 1
      (prepare_time_features sqrtZero sampleTen)
      (stepsOrEmpty (predictSteps sqrtZero modelConst scalerId (86400 * 9) 0 1
        (prepare_time_features sqrtZero sampleTen)))
      rfl (by decide)⟩

/-- C7: the scaler returned by training is fit exclusively on the
training-block rows; the test score is computed from test rows transformed
by that same fitted scaler; and every scaled future feature vector in the
prediction loop is that same fitted (never refit) transform applied to the
synthetic row's features. -/
theorem scaler_fit_on_train_only (sq : ℚ → ℚ) (rf : RF) (perm : Nat → Nat → List Nat)
    (ambient : Nat) (d : Df) (t : Trained)
    (htr : train_prediction_model sq rf perm ambient d = Except.ok t) :
    t.scaler = scalerFit sq (Xtrain sq perm ambient d) ∧
    (∃ qs, t.model ((Xtest sq perm ambient d).map
          (scalerTransformRow (scalerFit sq (Xtrain sq perm ambient d)))) = Except.ok qs ∧
      t.test_score = r2score (ytest sq perm ambient d) qs) ∧
    (∀ lt i fuel w l, predictSteps sq t.model t.scaler lt i fuel w = Except.ok l →
      ∀ st ∈ l, st.xscaled
          = scalerTransformRow (scalerFit sq (Xtrain sq perm ambient d)) st.xpred) := by
  simp only [train_prediction_model, modelScore] at htr
  cases hfit : rf.fit 100 ((some 42 : Option Nat).getD ambient)
      (XtrainS sq perm ambient d) (ytrain sq perm ambient d) with
  | error e => simp only [hfit] at htr; exact Except.noConfusion htr
  | ok m =>
      simp only [hfit] at htr
      cases hps : m (XtrainS sq perm ambient d) with
      | error e => simp only [hps] at htr; exact Except.noConfusion htr
      | ok ps =>
          simp only [hps] at htr
          by_cases hl1 : ps.length = (ytrain sq perm ambient d).length
          · rw [if_pos hl1] at htr
            cases hqs : m (XtestS sq perm ambient d) with
            | error e => simp only [hqs] at htr; exact Except.noConfusion htr
            | ok qs =>
                simp only [hqs] at htr
                by_cases hl2 : qs.length = (ytest sq perm ambient d).length
                · rw [if_pos hl2] at htr
                  simp only [Except.ok.injEq] at htr
                  subst htr
                  refine ⟨rfl, ⟨qs, hqs, rfl⟩, ?_⟩
                  intro lt i fuel w l hrun st hst
                  obtain ⟨_, h2, _⟩ := predictSteps_shape sq m
                    (theScaler sq perm ambient d) lt fuel i w l hrun
                  exact (h2 st hst).2.2
                · rw [if_neg hl2] at htr; simp at htr
          · rw [if_neg hl1] at htr; simp at htr

theorem scaler_fit_on_train_only_witness :
    (train_prediction_model sqrtZero rfConst permId 0 sampleTen
      = Except.ok (trainedOr (train_prediction_model sqrtZero rfConst permId 0 sampleTen)
          ⟨fun _ => Except.ok [], [], 0, 0⟩)) ∧
    ((trainedOr (train_prediction_model sqrtZero rfConst permId 0 sampleTen)
          ⟨fun _ => Except.ok [], [], 0, 0⟩).scaler
        = scalerFit sqrtZero (Xtrain sqrtZero permId 0 sampleTen) ∧
    (∃ qs, (trainedOr (train_prediction_model sqrtZero rfConst permId 0 sampleTen)
          ⟨fun _ => Except.ok [], [], 0, 0⟩).model
          ((Xtest sqrtZero permId 0 sampleTen).map
            (scalerTransformRow (scalerFit sqrtZero (Xtrain sqrtZero permId 0 sampleTen))))
          = Except.ok qs ∧
      (trainedOr (train_prediction_model sqrtZero rfConst permId 0 sampleTen)
          ⟨fun _ => Except.ok [], [], 0, 0⟩).test_score
        = r2score (ytest sqrtZero permId 0 sampleTen) qs) ∧
    (∀ lt i fuel w l, predictSteps sqrtZero
        (trainedOr (train_prediction_model sqrtZero rfConst permId 0 sampleTen)
          ⟨fun _ => Except.ok [], [], 0, 0⟩).model
        (trainedOr (train_prediction_model sqrtZero rfConst permId 0 sampleTen)
          ⟨fun _ => Except.ok [], [], 0, 0⟩).scaler lt i fuel w = Except.ok l →
      ∀ st ∈ l, st.xscaled
          = scalerTransformRow (scalerFit sqrtZero (Xtrain sqrtZero permId 0 sampleTen))
              st.xpred)) :=
  ⟨rfl, scaler_fit_on_train_only sqrtZero rfConst permId 0 sampleTen
    (trainedOr (train_prediction_model sqrtZero rfConst permId 0 sampleTen)
      ⟨fun _ => Except.ok [], [], 0, 0⟩) rfl⟩

theorem labelled_timestamp (sq : ℚ → ℚ) (d : Df) :
    (prepare_time_features sq (labelledFrame sq d)).timestamp = d.timestamp := rfl

/-- C4: whenever `get_trend_analysis` returns with a null error on a
time-ordered series, the predictions are exactly 7 entries whose
timestamps are the last historical timestamp plus `(i + 1)` days — hence
strictly increasing, one day apart, the first one day after the last
observation — computed from the original series' maximal timestamp, fixed
before the loop, independent of the growing working series. -/
theorem prediction_timestamps (sq : ℚ → ℚ) (rf : RF) (perm : Nat → Nat → List Nat)
    (ambient : Nat) (d : Df) (r : TrendResult)
    (hr : get_trend_analysis sq rf perm ambient d = r)
    (herr : r.error = none)
    (hsort : List.Chain' (· < ·) d.timestamp) :
    ∃ l, r.predictions = some l ∧ l.length = 7 ∧
      l.map Prod.fst = (List.range 7).map
        (fun j : Nat => d.timestamp.getLastD 0 + ((j : Int) + 1) * daySecs) ∧
      List.Chain' (· < ·) (l.map Prod.fst) := by
  by_cases hlen : d.len < 10
  · simp only [get_trend_analysis, if_pos hlen] at hr
    subst hr
    simp at herr
  · simp only [get_trend_analysis, if_neg hlen] at hr
    cases htr : train_prediction_model sq rf perm ambient d with
    | error e => simp only [htr] at hr; subst hr; simp at herr
    | ok t =>
        simp only [htr] at hr
        cases hp : predict_future_sentiment sq t.model t.scaler (labelledFrame sq d) 7 with
        | error e => simp only [hp] at hr; subst hr; simp at herr
        | ok preds =>
            simp only [hp] at hr
            subst hr
            simp only [predict_future_sentiment] at hp
            cases hsteps : predictSteps sq t.model t.scaler
                (listMaxI (prepare_time_features sq (labelledFrame sq d)).timestamp) 0 7
                (prepare_time_features sq (labelledFrame sq d)) with
            | error e => simp only [hsteps] at hp; exact Except.noConfusion hp
            | ok L =>
                simp only [hsteps, Except.ok.injEq] at hp
                subst hp
                obtain ⟨hts, _, _⟩ := predictSteps_shape sq t.model t.scaler _ 7 0 _ L hsteps
                have hL7 : L.length = 7 := by
                  have := congrArg List.length hts
                  simpa using this
                have hmax : listMaxI d.timestamp = d.timestamp.getLastD 0 :=
                  listMaxI_eq_getLast _ (List.Chain'.imp (fun a b h => le_of_lt h) hsort)
                have hts' : (L.map (fun st => (st.ts, st.pred))).map Prod.fst
                    = (List.range 7).map
                      (fun j : Nat => d.timestamp.getLastD 0 + ((j : Int) + 1) * daySecs) := by
                  rw [List.map_map]
                  have hcomp : (Prod.fst ∘ fun st : StepInfo => (st.ts, st.pred))
                      = StepInfo.ts := rfl
                  rw [hcomp, hts, labelled_timestamp sq d, hmax]
                  apply List.map_congr_left
                  intro j _
                  push_cast
                  ring
                refine ⟨L.map (fun st => (st.ts, st.pred)), rfl, by simp [hL7], hts', ?_⟩
                rw [hts']
                have h7 : List.range 7 = [0, 1, 2, 3, 4, 5, 6] := rfl
                rw [h7]
                simp only [List.map_cons, List.map_nil, List.chain'_cons,
                  List.chain'_singleton, daySecs, and_true]
                push_cast
                omega

theorem scenarioA_sorted : List.Chain' (· < ·) scenarioA.timestamp := by
  have h : scenarioA.timestamp = [0, 86400, 172800, 259200, 345600, 432000, 518400,
      604800, 691200, 777600, 864000, 950400, 1036800, 1123200, 1209600] := rfl
  rw [h]
  norm_num [List.chain'_cons, List.chain'_singleton]

theorem prediction_timestamps_witness :
    (get_trend_analysis sqrtZero rfConst permId 0 scenarioA
        = get_trend_analysis sqrtZero rfConst permId 0 scenarioA) ∧
    (get_trend_analysis sqrtZero rfConst permId 0 scenarioA).error = none ∧
    List.Chain' (· < ·) scenarioA.timestamp ∧
    ∃ l, (get_trend_analysis sqrtZero rfConst permId 0 scenarioA).predictions = some l ∧
      l.length = 7 ∧
      l.map Prod.fst = (List.range 7).map
        (fun j : Nat => scenarioA.timestamp.getLastD 0 + ((j : Int) + 1) * daySecs) ∧
      List.Chain' (· < ·) (l.map Prod.fst) :=
  ⟨rfl, by decide, scenarioA_sorted,
    prediction_timestamps sqrtZero rfConst permId 0 scenarioA
      (get_trend_analysis sqrtZero rfConst permId 0 scenarioA) rfl (by decide) scenarioA_sorted⟩

/-- C1 (Scenario A): on 15 records with strictly increasing daily
timestamps and alternating polarity +0.5 / -0.5, and any regressor oracle
that fits and predicts without raising (as a NaN-tolerant sklearn build
does), `get_trend_analysis` returns a null error, and 7 predictions whose
timestamps are one day apart starting the day after the last input
timestamp (1209600 = 14 days). -/
theorem scenarioA_success (sq : ℚ → ℚ) (perm : Nat → Nat → List Nat) (ambient : Nat)
    (rf : RF) (hrf : RFTotal rf) :
    ∃ l mp, get_trend_analysis sq rf perm ambient scenarioA = ⟨none, some l, some mp⟩ ∧
      l.length = 7 ∧
      l.map Prod.fst = (List.range 7).map
        (fun j : Nat => 1209600 + ((j : Int) + 1) * 86400) := by
  obtain ⟨t, htr, hmt, _⟩ := train_ok sq rf perm ambient hrf scenarioA
  obtain ⟨L, hL, hL7⟩ := predictSteps_total sq t.model t.scaler
      (listMaxI (prepare_time_features sq (labelledFrame sq scenarioA)).timestamp) hmt 7 0
      (prepare_time_features sq (labelledFrame sq scenarioA))
  obtain ⟨hts, _, _⟩ := predictSteps_shape sq t.model t.scaler _ 7 0 _ L hL
  refine ⟨L.map (fun st => (st.ts, st.pred)),
    ⟨t.train_score, t.test_score, (t.train_score + t.test_score) / 2⟩, ?_,
    by simp [hL7], ?_⟩
  · simp only [get_trend_analysis]
    rw [if_neg (by decide : ¬ scenarioA.len < 10)]
    simp only [htr, predict_future_sentiment, hL]
  · rw [List.map_map]
    have hcomp : (Prod.fst ∘ fun st : StepInfo => (st.ts, st.pred)) = StepInfo.ts := rfl
    rw [hcomp, hts, labelled_timestamp sq scenarioA]
    have hmax : listMaxI scenarioA.timestamp = 1209600 := by decide
    rw [hmax]
    apply List.map_congr_left
    intro j _
    simp only [daySecs]
    push_cast
    ring

theorem scenarioA_success_witness :
    RFTotal rfConst ∧
    ∃ l mp, get_trend_analysis sqrtZero rfConst permId 0 scenarioA = ⟨none, some l, some mp⟩ ∧
      l.length = 7 ∧
      l.map Prod.fst = (List.range 7).map
        (fun j : Nat => 1209600 + ((j : Int) + 1) * 86400) :=
  ⟨rfConst_total, scenarioA_success sqrtZero permId 0 rfConst rfConst_total⟩

end SentimentSage
